import Mathlib

/-
Shallow embedding of New_Alarm_Cond.c (EECS-3221 pthread alarms project).

The program keeps a singly linked list of alarm requests (`alarm_list`,
ordered by message number by `alarm_insert`) and a list of display-thread
handles (`thread_list`, ordered by message type).  We model both linked
lists as Lean `List`s, machine `int`/`time_t` as `Int`, and each C routine
that scans or mutates the lists as a structural recursion over the list.
Concurrency (semaphores, the `ready`/`read_count`/`writing` flags) is not
part of the functional model; each routine is modelled as the atomic
list transformation its body performs.
-/

/-- Model of `struct alarm_tag` (New_Alarm_Cond.c lines 28-42).  The
`link` pointer is represented by list structure; `time_t` and `int`
fields are `Int`, the 128-byte message buffer is a `String`. -/
structure alarm_t where
  seconds : Int
  time : Int
  message : String
  type : Int
  prev_type : Int
  is_new : Int
  number : Int
  request_type : Int
  expo : Int
deriving DecidableEq, Repr

/-- Model of `struct thread_tag` (lines 53-59).  `thread_id` (a
`pthread_t`) and the never-assigned `number` field carry no information
used by the list logic, so only `type` is modelled. -/
structure thread_t where
  type : Int
deriving DecidableEq, Repr

/-- Constant `TYPE_A = 1` (line 70). -/
def TYPE_A : Int := 1

/-- Constant `TYPE_B = 2` (line 71). -/
def TYPE_B : Int := 2

/-- Constant `TYPE_C = 3` (line 72). -/
def TYPE_C : Int := 3

/-- Shared mutable state of the program: `alarm_list` (line 66) and
`thread_list` (line 68). -/
structure SysState where
  alarm_list : List alarm_t
  thread_list : List thread_t
deriving DecidableEq, Repr

/-- Function `check_prev` (lines 109-115): returns 1 when the alarm's
type differs from its previous type, 0 otherwise. -/
def check_prev (a : alarm_t) : Int :=
  if a.type ≠ a.prev_type then 1 else 0

/-- Function `check_type_a_exists` (lines 124-141): scans the alarm list
for a Type A alarm with the given message type. -/
def check_type_a_exists (ty : Int) : List alarm_t → Bool
  | [] => false
  | x :: rest =>
    if x.type = ty ∧ x.request_type = TYPE_A then true
    else check_type_a_exists ty rest

/-- Function `check_number_a_exists` (lines 150-166): scans the alarm
list for a Type A alarm with the given message number. -/
def check_number_a_exists (num : Int) : List alarm_t → Bool
  | [] => false
  | x :: rest =>
    if x.number = num ∧ x.request_type = TYPE_A then true
    else check_number_a_exists num rest

/-- Function `check_dup` (lines 174-189): scans the alarm list for an
alarm with the given message type and request type. -/
def check_dup (ty req : Int) : List alarm_t → Bool
  | [] => false
  | x :: rest =>
    if x.type = ty ∧ x.request_type = req then true
    else check_dup ty req rest

/-- Function `check_dup_2` (lines 198-214): scans the alarm list for an
alarm with the given message number and request type. -/
def check_dup_2 (num req : Int) : List alarm_t → Bool
  | [] => false
  | x :: rest =>
    if x.number = num ∧ x.request_type = req then true
    else check_dup_2 num req rest

/-- Function `remove_alarm` (lines 224-261): unlinks the first Type A
alarm with the given message number and returns the type of the removed
alarm, or 0 when no such alarm exists.  The result pairs the updated
list with the returned `val`. -/
def remove_alarm (number : Int) : List alarm_t → List alarm_t × Int
  | [] => ([], 0)
  | x :: rest =>
    if x.number = number ∧ x.request_type = TYPE_A then (rest, x.type)
    else
      let r := remove_alarm number rest
      (x :: r.1, r.2)

/-- Function `remove_alarm_B` (lines 270-294): unlinks the first Type B
alarm with the given message type. -/
def remove_alarm_B (ty : Int) : List alarm_t → List alarm_t
  | [] => []
  | x :: rest =>
    if x.request_type = TYPE_B ∧ x.type = ty then rest
    else x :: remove_alarm_B ty rest

/-- Function `remove_alarm_C` (lines 304-328): unlinks the first Type C
alarm with the given message number. -/
def remove_alarm_C (number : Int) : List alarm_t → List alarm_t
  | [] => []
  | x :: rest =>
    if x.request_type = TYPE_C ∧ x.number = number then rest
    else x :: remove_alarm_C number rest

/-- Function `alarm_insert` (lines 336-388): walks the list; on the
first node with the same message number, when the inserted request is
Type A, the new node replaces the old one in place and records the old
node's type in `prev_type`; otherwise the new node is linked in before
the first node with a strictly greater message number, or appended at
the end. -/
def alarm_insert (a : alarm_t) : List alarm_t → List alarm_t
  | [] => [a]
  | x :: rest =>
    if x.number = a.number ∧ a.request_type = TYPE_A then
      { a with prev_type := x.type } :: rest
    else if a.number < x.number then
      a :: x :: rest
    else
      x :: alarm_insert a rest

/-- Function `insert_thread` (lines 396-427): links a thread handle into
the thread list before the first handle with a strictly greater message
type, or at the end. -/
def insert_thread (t : thread_t) : List thread_t → List thread_t
  | [] => [t]
  | x :: rest =>
    if t.type < x.type then t :: x :: rest
    else x :: insert_thread t rest

/-- Function `terminate_thread` (lines 438-464): cancels (modelled as:
unlinks) the first thread handle with the given message type. -/
def terminate_thread (ty : Int) : List thread_t → List thread_t
  | [] => []
  | x :: rest =>
    if x.type = ty then rest
    else x :: terminate_thread ty rest

/-- Scanning loop of `check_useless_thread` (lines 487-494): the message
type of the first handle whose type has no Type A alarm left, if any. -/
def find_useless_type (al : List alarm_t) : List thread_t → Option Int
  | [] => none
  | x :: rest =>
    if check_type_a_exists x.type al = false then some x.type
    else find_useless_type al rest

/-- Function `check_useless_thread` (lines 476-497): terminates the
first thread whose message type has no Type A alarm available, returning
the updated thread list and whether a thread was terminated. -/
def check_useless_thread (al : List alarm_t) (ths : List thread_t) :
    List thread_t × Bool :=
  match find_useless_type al ths with
  | some ty => (terminate_thread ty ths, true)
  | none => (ths, false)

/-- Type C processing block of `alarm_thread` (lines 717-761): remove
the target Type A alarm; when one was removed (`val != 0`) also remove
the Type C request itself; then, when no Type A alarm of type `val`
remains, terminate the display thread for `val`, remove the Type B
request for `val`, and remove the Type C request.  (`err_abort` paths
for semaphore failure are not modelled.) -/
def process_cancel (num : Int) (s : SysState) : SysState :=
  let r := remove_alarm num s.alarm_list
  let al2 := if r.2 ≠ 0 then remove_alarm_C num r.1 else r.1
  if check_type_a_exists r.2 al2 = false then
    { alarm_list := remove_alarm_C num (remove_alarm_B r.2 al2),
      thread_list := terminate_thread r.2 s.thread_list }
  else
    { alarm_list := al2, thread_list := s.thread_list }

/-- Action selected by one scan of the dispatcher loop in `alarm_thread`
(lines 656-763). -/
inductive DispatchAction where
  | act_a
  | act_b (ty : Int)
  | act_c (num : Int)
deriving DecidableEq, Repr

/-- Scanning loop of `alarm_thread` (lines 656-763): walks the alarm
list and stops at the first entry it acts on — a new Type A entry or a
new Type B entry (whose `is_new` is cleared in place), or a Type C
entry (the loop `break`s at a Type C entry whether or not it is new;
clearing of a Type C entry's `is_new` is a no-op in the source, the
statement at line 720 being `==` rather than `=`).  Returns the updated
list and the selected action. -/
def scan_alarms : List alarm_t → List alarm_t × Option DispatchAction
  | [] => ([], none)
  | x :: rest =>
    if x.request_type = TYPE_A ∧ x.is_new = 1 then
      ({ x with is_new := 0 } :: rest, some DispatchAction.act_a)
    else if x.request_type = TYPE_B ∧ x.is_new = 1 then
      ({ x with is_new := 0 } :: rest, some (DispatchAction.act_b x.type))
    else if x.request_type = TYPE_C then
      (x :: rest, if x.is_new = 1 then some (DispatchAction.act_c x.number) else none)
    else
      let r := scan_alarms rest
      (x :: r.1, r.2)

/-- One pass of the dispatcher (`alarm_thread`, lines 638-765), run
after an insertion raised `insert_flag`: process the first actionable
entry.  A new Type A entry triggers `check_useless_thread`; a new
Type B entry creates a display thread handle for its type (the created
`pthread_t` itself is outside the model); a new Type C entry runs the
cancel block. -/
def alarm_thread_step (s : SysState) : SysState :=
  let r := scan_alarms s.alarm_list
  match r.2 with
  | none => { s with alarm_list := r.1 }
  | some DispatchAction.act_a =>
    { alarm_list := r.1,
      thread_list := (check_useless_thread r.1 s.thread_list).1 }
  | some (DispatchAction.act_b ty) =>
    { alarm_list := r.1,
      thread_list := insert_thread { type := ty } s.thread_list }
  | some (DispatchAction.act_c num) =>
    process_cancel num { s with alarm_list := r.1 }

/-- Result tag of an admission attempt in `main`, identifying which
branch ran: successful insertion, or one of the error printfs, or the
fall-through for input failing the sscanf/positivity guard. -/
inductive AdmitRes where
  | accepted
  | duplicate
  | not_found
  | invalid
deriving DecidableEq, Repr

/-- Alarm record built by the Type A branch of `main` (lines 811-818):
fields assigned there, on top of the uninitialized malloc contents
`junk`; `time` is the admission clock plus the requested seconds, and
`prev_type` starts equal to `type`.  (`expo` is left uninitialized by
`main`.) -/
def build_alarm_a (junk : alarm_t) (now sec ty num : Int) (msg : String) : alarm_t :=
  { junk with
    seconds := sec, type := ty, number := num, message := msg,
    time := now + sec, request_type := TYPE_A, is_new := 1, prev_type := ty }

/-- Type A admission branch of `main` (lines 811-843): when the parsed
`seconds`, `number` and `type` are all positive, the request is inserted
by `alarm_insert`; otherwise the line falls through the sscanf guard and
nothing is inserted. -/
def submit_a (now sec ty num : Int) (msg : String) (junk : alarm_t)
    (s : SysState) : SysState × AdmitRes :=
  if 0 < sec ∧ 0 < num ∧ 0 < ty then
    ({ s with alarm_list := alarm_insert (build_alarm_a junk now sec ty num msg) s.alarm_list },
      AdmitRes.accepted)
  else (s, AdmitRes.invalid)

/-- Type B admission branch of `main` (lines 846-899): requires a
positive parsed type; rejected when no Type A alarm of that type exists
(A.3.2.3) or when a Type B request of that type is already listed
(A.3.2.4); otherwise the Type B request is inserted (A.3.2.5).  Fields
other than `type`, `request_type`, `is_new` keep the uninitialized
malloc contents `junk` — in particular `number`. -/
def submit_b (ty : Int) (junk : alarm_t) (s : SysState) : SysState × AdmitRes :=
  if 0 < ty then
    if check_type_a_exists ty s.alarm_list = false then (s, AdmitRes.not_found)
    else if check_dup ty TYPE_B s.alarm_list = true then (s, AdmitRes.duplicate)
    else
      ({ s with alarm_list :=
          alarm_insert { junk with type := ty, request_type := TYPE_B, is_new := 1 } s.alarm_list },
        AdmitRes.accepted)
  else (s, AdmitRes.invalid)

/-- Type C admission branch of `main` (lines 902-958): requires a
positive parsed number; rejected when no Type A alarm with that number
exists (A.3.2.6) or when a Type C request with that number is already
listed (A.3.2.7); otherwise the Type C request is inserted (A.3.2.8). -/
def submit_c (num : Int) (junk : alarm_t) (s : SysState) : SysState × AdmitRes :=
  if 0 < num then
    if check_number_a_exists num s.alarm_list = false then (s, AdmitRes.not_found)
    else if check_dup_2 num TYPE_C s.alarm_list = true then (s, AdmitRes.duplicate)
    else
      ({ s with alarm_list :=
          alarm_insert { junk with number := num, request_type := TYPE_C, is_new := 1 } s.alarm_list },
        AdmitRes.accepted)
  else (s, AdmitRes.invalid)

/-- Observable output of a display worker visit to one list node. -/
inductive DisplayEvent where
  | displayed (ty num : Int) (msg : String) (att : Int)
  | replaced_notice (ty : Int)
deriving DecidableEq, Repr

/-- Result of a worker's visit to one node: the (possibly updated)
node, the clock after the visit, and the emitted events. -/
structure VisitRes where
  entry : alarm_t
  clock : Int
  events : List DisplayEvent
deriving DecidableEq, Repr

/-- One node visit of `periodic_display_thread` (lines 572-605) by the
worker watching message type `ty`, with current clock `now`.  A Type A
node of a different type whose type changed from `ty` and is still
unacknowledged gets a one-time replaced notice (`expo` set to 1,
A.3.4.2).  A Type A node of the watched type has its `time` overwritten
with `now + seconds` (line 592), the worker spins until the clock
reaches that value, and the message is printed (A.3.4.1) — so the visit
ends at clock `now + seconds`.  Other nodes are skipped. -/
def worker_visit (ty now : Int) (a : alarm_t) : VisitRes :=
  if a.type ≠ ty ∧ a.request_type = TYPE_A then
    if check_prev a = 1 ∧ a.prev_type = ty ∧ a.expo = 0 then
      { entry := { a with expo := 1 }, clock := now,
        events := [DisplayEvent.replaced_notice a.type] }
    else { entry := a, clock := now, events := [] }
  else if a.type = ty ∧ a.request_type = TYPE_A then
    { entry := { a with time := now + a.seconds }, clock := now + a.seconds,
      events := [DisplayEvent.displayed a.type a.number a.message (now + a.seconds)] }
  else { entry := a, clock := now, events := [] }

/-- Result of one full traversal of the alarm list by a worker. -/
structure PassRes where
  alarms : List alarm_t
  clock : Int
  events : List DisplayEvent
deriving DecidableEq, Repr

/-- One traversal of the alarm list by the worker watching type `ty`
(`periodic_display_thread` wraps around to the head after the last
node, lines 563-569, so its infinite loop is a sequence of such
passes).  Nodes are visited head to tail; no node is ever unlinked by
the worker. -/
def worker_pass (ty : Int) : Int → List alarm_t → PassRes
  | now, [] => { alarms := [], clock := now, events := [] }
  | now, x :: rest =>
    let v := worker_visit ty now x
    let r := worker_pass ty v.clock rest
    { alarms := v.entry :: r.alarms, clock := r.clock, events := v.events ++ r.events }

/-- Idle loop of `alarm_thread` (lines 645-647): `while (insert_flag == 0) { }`
with an empty body.  Modelled over the sequence of values the shared
flag takes at successive polls: `dispatcher_idle_wait flag i fuel`
performs up to `fuel` polls starting at poll index `i` and returns the
index of the first poll at which the flag is nonzero, or `none` when
the flag was 0 at every one of the `fuel` polls — each iteration does
nothing but read the flag again. -/
def dispatcher_idle_wait (flag : Nat → Int) : Nat → Nat → Option Nat
  | _, 0 => none
  | i, fuel + 1 =>
    if flag i = 0 then dispatcher_idle_wait flag (i + 1) fuel else some i

/-- Sortedness of the registry as claimed: every pair of adjacent
entries has non-decreasing message numbers. -/
def sorted_by_number (l : List alarm_t) : Prop :=
  List.Chain' (fun a b => a.number ≤ b.number) l

instance : IsTrans alarm_t (fun a b => a.number ≤ b.number) :=
  ⟨fun _ _ _ h1 h2 => le_trans h1 h2⟩

instance (l : List alarm_t) : Decidable (sorted_by_number l) :=
  inferInstanceAs (Decidable (List.Chain' (fun a b : alarm_t => a.number ≤ b.number) l))

/-- Predicate: a Type A (SCHEDULE) entry with message number `n`. -/
def is_sched_num (n : Int) (x : alarm_t) : Bool :=
  decide (x.number = n ∧ x.request_type = TYPE_A)

/-- Predicate: a Type C (CANCEL) entry with message number `n`. -/
def is_cancel_num (n : Int) (x : alarm_t) : Bool :=
  decide (x.number = n ∧ x.request_type = TYPE_C)

/-- Predicate: a thread handle for message type `t`. -/
def is_handle_type (t : Int) (h : thread_t) : Bool :=
  decide (h.type = t)

/-- Predicate: a display event for message number `n`. -/
def is_display_of (n : Int) : DisplayEvent → Bool
  | DisplayEvent.displayed _ num _ _ => decide (num = n)
  | DisplayEvent.replaced_notice _ => false

/-- A zero-filled `alarm_t` record standing for the contents of a fresh
`malloc` in the traces below (the program never zeroes it; any value
would do for the fields the program leaves uninitialized). -/
def junk0 : alarm_t :=
  { seconds := 0, time := 0, message := "", type := 0, prev_type := 0,
    is_new := 0, number := 0, request_type := 0, expo := 0 }

/-- Every member of `alarm_insert a l` is either the inserted record
(possibly with `prev_type` overwritten, hence with `a`'s number) or a
member of `l`. -/
theorem mem_alarm_insert (a z : alarm_t) : ∀ l : List alarm_t,
    z ∈ alarm_insert a l → z.number = a.number ∨ z ∈ l := by
  intro l
  induction l with
  | nil => intro h; simp [alarm_insert] at h; simp [h]
  | cons x rest ih =>
    intro h
    simp only [alarm_insert] at h
    split at h
    · rcases List.mem_cons.1 h with h1 | h1
      · left; rw [h1]
      · right; exact List.mem_cons_of_mem x h1
    · split at h
      · rcases List.mem_cons.1 h with h1 | h1
        · left; rw [h1]
        · right; exact h1
      · rcases List.mem_cons.1 h with h1 | h1
        · right; exact List.mem_cons.2 (Or.inl h1)
        · rcases ih h1 with h2 | h2
          · left; exact h2
          · right; exact List.mem_cons_of_mem x h2

/-- The insertion of `alarm_insert` keeps the list pairwise ordered by
message number. -/
theorem pairwise_alarm_insert (a : alarm_t) (l : List alarm_t)
    (h : l.Pairwise fun u v => u.number ≤ v.number) :
    (alarm_insert a l).Pairwise fun u v => u.number ≤ v.number := by
  induction l with
  | nil => simp [alarm_insert]
  | cons x rest ih =>
    rw [List.pairwise_cons] at h
    obtain ⟨hx, hrest⟩ := h
    simp only [alarm_insert]
    split
    · rename_i hc
      rw [List.pairwise_cons]
      refine ⟨fun y hy => ?_, hrest⟩
      have := hx y hy
      simp only
      omega
    · split
      · rename_i hc hlt
        rw [List.pairwise_cons]
        refine ⟨fun y hy => ?_, List.pairwise_cons.2 ⟨hx, hrest⟩⟩
        rcases List.mem_cons.1 hy with h1 | h1
        · rw [h1]; omega
        · have := hx y h1; omega
      · rename_i hc hnlt
        rw [List.pairwise_cons]
        refine ⟨fun y hy => ?_, ih hrest⟩
        rcases mem_alarm_insert a y rest hy with h1 | h1
        · omega
        · exact hx y h1

/-- The list produced by `remove_alarm` is a sublist of the input. -/
theorem remove_alarm_sublist (n : Int) (l : List alarm_t) :
    (remove_alarm n l).1.Sublist l := by
  induction l with
  | nil => simp [remove_alarm]
  | cons x rest ih =>
    simp only [remove_alarm]
    split
    · exact List.sublist_cons_self x rest
    · exact List.Sublist.cons₂ x ih

/-- The list produced by `remove_alarm_B` is a sublist of the input. -/
theorem remove_alarm_B_sublist (t : Int) (l : List alarm_t) :
    (remove_alarm_B t l).Sublist l := by
  induction l with
  | nil => simp [remove_alarm_B]
  | cons x rest ih =>
    simp only [remove_alarm_B]
    split
    · exact List.sublist_cons_self x rest
    · exact List.Sublist.cons₂ x ih

/-- The list produced by `remove_alarm_C` is a sublist of the input. -/
theorem remove_alarm_C_sublist (n : Int) (l : List alarm_t) :
    (remove_alarm_C n l).Sublist l := by
  induction l with
  | nil => simp [remove_alarm_C]
  | cons x rest ih =>
    simp only [remove_alarm_C]
    split
    · exact List.sublist_cons_self x rest
    · exact List.Sublist.cons₂ x ih

/-- The dispatcher scan only clears `is_new` flags in place: the
sequence of message numbers is untouched. -/
theorem scan_alarms_map_number : ∀ l : List alarm_t,
    ((scan_alarms l).1).map (fun x => x.number) = l.map fun x => x.number := by
  intro l
  induction l with
  | nil => simp [scan_alarms]
  | cons x rest ih =>
    simp only [scan_alarms]
    split
    · simp
    · split
      · simp
      · split
        · simp
        · simpa using ih

/-- Pairwise ordering by number transfers along equal number sequences. -/
theorem pairwise_number_of_map_eq (l1 l2 : List alarm_t)
    (h : l1.map (fun x => x.number) = l2.map fun x => x.number)
    (hp : l2.Pairwise fun u v => u.number ≤ v.number) :
    l1.Pairwise fun u v => u.number ≤ v.number := by
  have h2 : (l2.map fun x => x.number).Pairwise (· ≤ ·) := List.pairwise_map.2 hp
  rw [← h] at h2
  exact List.pairwise_map.1 h2

/-- The cancel-processing block only removes entries, so it keeps the
registry pairwise ordered by message number. -/
theorem pairwise_process_cancel (n : Int) (s : SysState)
    (h : s.alarm_list.Pairwise fun u v => u.number ≤ v.number) :
    (process_cancel n s).alarm_list.Pairwise fun u v => u.number ≤ v.number := by
  have h1 : (remove_alarm n s.alarm_list).1.Pairwise fun u v => u.number ≤ v.number :=
    List.Pairwise.sublist (remove_alarm_sublist n s.alarm_list) h
  have h2 : ∀ m : List alarm_t,
      m.Pairwise (fun u v : alarm_t => u.number ≤ v.number) → ∀ k b : Int,
      (remove_alarm_C k (remove_alarm_B b m)).Pairwise fun u v => u.number ≤ v.number :=
    fun m hm k b => List.Pairwise.sublist
      ((remove_alarm_C_sublist k _).trans (remove_alarm_B_sublist b m)) hm
  have h3 : (remove_alarm_C n (remove_alarm n s.alarm_list).1).Pairwise
      fun u v => u.number ≤ v.number :=
    List.Pairwise.sublist (remove_alarm_C_sublist n _) h1
  simp only [process_cancel]
  split
  · split
    · exact h2 _ h3 _ _
    · exact h3
  · split
    · exact h2 _ h1 _ _
    · exact h1

/-- One dispatcher pass keeps the registry pairwise ordered by message
number. -/
theorem pairwise_alarm_thread_step (s : SysState)
    (h : s.alarm_list.Pairwise fun u v => u.number ≤ v.number) :
    (alarm_thread_step s).alarm_list.Pairwise fun u v => u.number ≤ v.number := by
  have hscan : ((scan_alarms s.alarm_list).1).Pairwise fun u v => u.number ≤ v.number :=
    pairwise_number_of_map_eq _ _ (scan_alarms_map_number s.alarm_list) h
  simp only [alarm_thread_step]
  split
  · exact hscan
  · exact hscan
  · exact hscan
  · exact pairwise_process_cancel _ _ hscan

/-- When `remove_alarm` finds no matching Type A alarm it returns the
unchanged list and 0. -/
theorem remove_alarm_not_found (n : Int) (l : List alarm_t)
    (h : check_number_a_exists n l = false) : remove_alarm n l = (l, 0) := by
  induction l with
  | nil => simp [remove_alarm]
  | cons x rest ih =>
    simp only [check_number_a_exists] at h
    simp only [remove_alarm]
    split
    · rename_i hc
      rw [if_pos hc] at h
      exact absurd h (by simp)
    · rename_i hc
      rw [if_neg hc] at h
      simp [ih h]

/-- When some Type A alarm with number `n` is present and all entry
types are at least 1, the `val` returned by `remove_alarm` is at
least 1. -/
theorem remove_alarm_val_pos (n : Int) (l : List alarm_t)
    (hty : ∀ x ∈ l, 1 ≤ x.type) (hcnt : l.countP (is_sched_num n) ≠ 0) :
    1 ≤ (remove_alarm n l).2 := by
  induction l with
  | nil => simp at hcnt
  | cons x rest ih =>
    simp only [remove_alarm]
    split
    · exact hty x (List.mem_cons_self x rest)
    · rename_i hc
      have hx : is_sched_num n x = false := by
        simp only [is_sched_num, decide_eq_false_iff_not]
        exact hc
      rw [List.countP_cons, hx] at hcnt
      simp only [Bool.false_eq_true, if_false, Nat.add_zero] at hcnt
      exact ih (fun y hy => hty y (List.mem_cons_of_mem x hy)) hcnt

/-- When exactly one Type A alarm with number `n` is listed,
`remove_alarm` removes it: none remain afterwards. -/
theorem remove_alarm_count_self (n : Int) (l : List alarm_t)
    (h : l.countP (is_sched_num n) = 1) :
    (remove_alarm n l).1.countP (is_sched_num n) = 0 := by
  induction l with
  | nil => simp at h
  | cons x rest ih =>
    simp only [remove_alarm]
    split
    · rename_i hc
      have hx : is_sched_num n x = true := by
        simp only [is_sched_num, decide_eq_true_eq]
        exact hc
      rw [List.countP_cons, hx] at h
      simpa using Nat.add_right_cancel h
    · rename_i hc
      have hx : is_sched_num n x = false := by
        simp only [is_sched_num, decide_eq_false_iff_not]
        exact hc
      rw [List.countP_cons, hx] at h
      simp only [Bool.false_eq_true, if_false, Nat.add_zero] at h
      simp only [List.countP_cons, hx, Bool.false_eq_true, if_false, Nat.add_zero]
      exact ih h

/-- `remove_alarm` only removes a Type A alarm with number `n`, so any
count of entries that such an alarm cannot match is preserved. -/
theorem countP_remove_alarm_other (n : Int) (l : List alarm_t) (p : alarm_t → Bool)
    (hp : ∀ x, x.number = n → x.request_type = TYPE_A → p x = false) :
    (remove_alarm n l).1.countP p = l.countP p := by
  induction l with
  | nil => simp [remove_alarm]
  | cons x rest ih =>
    simp only [remove_alarm]
    split
    · rename_i hc
      rw [List.countP_cons, hp x hc.1 hc.2]
      simp
    · simp only [List.countP_cons]
      rw [ih]

/-- `remove_alarm_B` only removes a Type B alarm of type `t`, so any
count of entries that such an alarm cannot match is preserved. -/
theorem countP_remove_alarm_B_other (t : Int) (l : List alarm_t) (p : alarm_t → Bool)
    (hp : ∀ x, x.request_type = TYPE_B → x.type = t → p x = false) :
    (remove_alarm_B t l).countP p = l.countP p := by
  induction l with
  | nil => simp [remove_alarm_B]
  | cons x rest ih =>
    simp only [remove_alarm_B]
    split
    · rename_i hc
      rw [List.countP_cons, hp x hc.1 hc.2]
      simp
    · simp only [List.countP_cons]
      rw [ih]

/-- `remove_alarm_C` only removes a Type C alarm with number `n`, so
any count of entries that such an alarm cannot match is preserved. -/
theorem countP_remove_alarm_C_other (n : Int) (l : List alarm_t) (p : alarm_t → Bool)
    (hp : ∀ x, x.request_type = TYPE_C → x.number = n → p x = false) :
    (remove_alarm_C n l).countP p = l.countP p := by
  induction l with
  | nil => simp [remove_alarm_C]
  | cons x rest ih =>
    simp only [remove_alarm_C]
    split
    · rename_i hc
      rw [List.countP_cons, hp x hc.1 hc.2]
      simp
    · simp only [List.countP_cons]
      rw [ih]

/-- When at most one Type C alarm with number `n` is listed, none
remains after `remove_alarm_C`. -/
theorem remove_alarm_C_count_self (n : Int) (l : List alarm_t)
    (h : l.countP (is_cancel_num n) ≤ 1) :
    (remove_alarm_C n l).countP (is_cancel_num n) = 0 := by
  induction l with
  | nil => simp [remove_alarm_C]
  | cons x rest ih =>
    simp only [remove_alarm_C]
    split
    · rename_i hc
      have hx : is_cancel_num n x = true := by
        simp only [is_cancel_num, decide_eq_true_eq]
        exact ⟨hc.2, hc.1⟩
      rw [List.countP_cons, hx] at h
      simp only [eq_self_iff_true, if_true] at h
      omega
    · rename_i hc
      have hx : is_cancel_num n x = false := by
        simp only [is_cancel_num, decide_eq_false_iff_not]
        intro hk
        exact hc ⟨hk.2, hk.1⟩
      rw [List.countP_cons, hx] at h
      simp only [Bool.false_eq_true, if_false, Nat.add_zero] at h
      simp only [List.countP_cons, hx, Bool.false_eq_true, if_false, Nat.add_zero]
      exact ih h

/-- When at most one handle of type `t` is listed, none remains after
`terminate_thread`. -/
theorem terminate_thread_count_self (t : Int) (l : List thread_t)
    (h : l.countP (is_handle_type t) ≤ 1) :
    (terminate_thread t l).countP (is_handle_type t) = 0 := by
  induction l with
  | nil => simp [terminate_thread]
  | cons x rest ih =>
    simp only [terminate_thread]
    split
    · rename_i hc
      have hx : is_handle_type t x = true := by
        simp only [is_handle_type, decide_eq_true_eq]
        exact hc
      rw [List.countP_cons, hx] at h
      simp only [eq_self_iff_true, if_true] at h
      omega
    · rename_i hc
      have hx : is_handle_type t x = false := by
        simp only [is_handle_type, decide_eq_false_iff_not]
        exact hc
      rw [List.countP_cons, hx] at h
      simp only [Bool.false_eq_true, if_false, Nat.add_zero] at h
      simp only [List.countP_cons, hx, Bool.false_eq_true, if_false, Nat.add_zero]
      exact ih h

/-- `terminate_thread` does nothing when no handle has type `t`. -/
theorem terminate_thread_of_none (t : Int) (l : List thread_t)
    (h : ∀ x ∈ l, x.type ≠ t) : terminate_thread t l = l := by
  induction l with
  | nil => simp [terminate_thread]
  | cons x rest ih =>
    simp only [terminate_thread]
    rw [if_neg (h x (List.mem_cons_self x rest))]
    rw [ih fun y hy => h y (List.mem_cons_of_mem x hy)]

/-- `remove_alarm_B` does nothing when no listed entry is a Type B
request of type `t`. -/
theorem remove_alarm_B_of_none (t : Int) (l : List alarm_t)
    (h : ∀ x ∈ l, ¬(x.request_type = TYPE_B ∧ x.type = t)) :
    remove_alarm_B t l = l := by
  induction l with
  | nil => simp [remove_alarm_B]
  | cons x rest ih =>
    simp only [remove_alarm_B]
    rw [if_neg (h x (List.mem_cons_self x rest))]
    rw [ih fun y hy => h y (List.mem_cons_of_mem x hy)]

/-- `check_type_a_exists` is false when no listed entry has type `t`. -/
theorem check_type_a_exists_of_none (t : Int) (l : List alarm_t)
    (h : ∀ x ∈ l, x.type ≠ t) : check_type_a_exists t l = false := by
  induction l with
  | nil => simp [check_type_a_exists]
  | cons x rest ih =>
    simp only [check_type_a_exists]
    rw [if_neg]
    · exact ih fun y hy => h y (List.mem_cons_of_mem x hy)
    · intro hk
      exact h x (List.mem_cons_self x rest) hk.1

/-- A false `check_dup_2` scan means no entry with that number and
request type is listed. -/
theorem check_dup_2_false_count (n r : Int) (l : List alarm_t)
    (h : check_dup_2 n r l = false) :
    l.countP (fun x => decide (x.number = n ∧ x.request_type = r)) = 0 := by
  induction l with
  | nil => simp
  | cons x rest ih =>
    simp only [check_dup_2] at h
    split at h
    · exact absurd h (by simp)
    · rename_i hc
      rw [List.countP_cons]
      have hx : decide (x.number = n ∧ x.request_type = r) = false := by
        simp only [decide_eq_false_iff_not]
        exact hc
      rw [hx, ih h]
      simp

/-- Inserting a non-Type A request never replaces a node: every count
grows by exactly the inserted entry's contribution. -/
theorem countP_alarm_insert_not_a (a : alarm_t) (l : List alarm_t) (p : alarm_t → Bool)
    (ha : a.request_type ≠ TYPE_A) :
    (alarm_insert a l).countP p = l.countP p + (if p a then 1 else 0) := by
  induction l with
  | nil => simp [alarm_insert, List.countP_cons]
  | cons x rest ih =>
    simp only [alarm_insert]
    rw [if_neg (by intro hk; exact ha hk.2)]
    split
    · simp only [List.countP_cons]
    · simp only [List.countP_cons, ih]
      omega

/-- A single worker visit emits exactly one display event for number
`n` when the node is a Type A alarm of the watched type with that
number, and none otherwise. -/
theorem worker_visit_display_count (ty n now : Int) (x : alarm_t) :
    ((worker_visit ty now x).events).countP (is_display_of n) =
      if x.request_type = TYPE_A ∧ x.type = ty ∧ x.number = n then 1 else 0 := by
  simp only [worker_visit]
  split
  · rename_i hc
    rw [if_neg (by tauto : ¬(x.request_type = TYPE_A ∧ x.type = ty ∧ x.number = n))]
    split
    · simp [is_display_of]
    · simp
  · rename_i hc
    split
    · rename_i hc2
      by_cases hn : x.number = n
      · rw [if_pos ⟨hc2.2, hc2.1, hn⟩]
        simp [is_display_of, hn]
      · rw [if_neg (by tauto)]
        simp [is_display_of, hn]
    · rename_i hc2
      rw [if_neg (by tauto)]
      simp

/-- A worker pass never unlinks a node: the list length is unchanged. -/
theorem worker_pass_length (ty : Int) : ∀ (now : Int) (l : List alarm_t),
    (worker_pass ty now l).alarms.length = l.length := by
  intro now l
  induction l generalizing now with
  | nil => simp [worker_pass]
  | cons x rest ih => simp [worker_pass, ih]

/-- One worker pass emits one display event for number `n` per listed
Type A alarm of the watched type with that number. -/
theorem worker_pass_display_count (ty n : Int) : ∀ (now : Int) (l : List alarm_t),
    ((worker_pass ty now l).events).countP (is_display_of n) =
      l.countP fun x => decide (x.request_type = TYPE_A ∧ x.type = ty ∧ x.number = n) := by
  intro now l
  induction l generalizing now with
  | nil => simp [worker_pass]
  | cons x rest ih =>
    simp only [worker_pass, List.countP_append, List.countP_cons]
    rw [worker_visit_display_count, ih]
    by_cases hx : x.request_type = TYPE_A ∧ x.type = ty ∧ x.number = n
    · rw [if_pos hx, decide_eq_true hx]
      simp only [eq_self_iff_true, if_true]
      omega
    · rw [if_neg hx, decide_eq_false hx]
      simp only [Bool.false_eq_true, if_false]
      omega

/-- Fixture: a state with one Type C request with number 1 and one
Type A alarm with number 2 and type 1, plus a handle for type 1. -/
def sample_state : SysState :=
  { alarm_list :=
      [{ junk0 with number := 1, type := 1, request_type := TYPE_C },
       { junk0 with number := 2, type := 1, request_type := TYPE_A }],
    thread_list := [{ type := 1 }] }

/-- C1: after every completed mutation of the alarm registry —
insertion or in-place replacement by `alarm_insert`, removal by
`remove_alarm`, `remove_alarm_B` or `remove_alarm_C`, the dispatcher's
cancel-processing block, or a whole dispatcher pass — every pair of
adjacent entries has non-decreasing message numbers. -/
theorem C1_registry_sorted (a : alarm_t) (n ty : Int) (s : SysState)
    (h : sorted_by_number s.alarm_list) :
    sorted_by_number (alarm_insert a s.alarm_list) ∧
    sorted_by_number (remove_alarm n s.alarm_list).1 ∧
    sorted_by_number (remove_alarm_B ty s.alarm_list) ∧
    sorted_by_number (remove_alarm_C n s.alarm_list) ∧
    sorted_by_number (process_cancel n s).alarm_list ∧
    sorted_by_number (alarm_thread_step s).alarm_list := by
  rw [sorted_by_number, List.chain'_iff_pairwise] at h
  refine ⟨?_, ?_, ?_, ?_, ?_, ?_⟩ <;> rw [sorted_by_number, List.chain'_iff_pairwise]
  · exact pairwise_alarm_insert a _ h
  · exact List.Pairwise.sublist (remove_alarm_sublist n _) h
  · exact List.Pairwise.sublist (remove_alarm_B_sublist ty _) h
  · exact List.Pairwise.sublist (remove_alarm_C_sublist n _) h
  · exact pairwise_process_cancel n s h
  · exact pairwise_alarm_thread_step s h

/-- C1 witness: the ordering is preserved on a concrete sorted
two-entry registry. -/
theorem C1_witness :
    sorted_by_number (alarm_insert junk0 sample_state.alarm_list) ∧
    sorted_by_number (remove_alarm 2 sample_state.alarm_list).1 ∧
    sorted_by_number (remove_alarm_B 1 sample_state.alarm_list) ∧
    sorted_by_number (remove_alarm_C 2 sample_state.alarm_list) ∧
    sorted_by_number (process_cancel 2 sample_state).alarm_list ∧
    sorted_by_number (alarm_thread_step sample_state).alarm_list :=
  C1_registry_sorted junk0 2 1 sample_state (by simp [sorted_by_number, sample_state, junk0])

/-- Fixture: a pending Type A alarm with number 5, type 1. -/
def ceA5 : alarm_t :=
  { junk0 with
    number := 5, type := 1, request_type := TYPE_A, prev_type := 1,
    seconds := 10, time := 110 }

/-- Fixture: a pending Type C cancel request for number 5. -/
def ceC5 : alarm_t :=
  { junk0 with number := 5, type := 1, request_type := TYPE_C, is_new := 1 }

/-- Fixture: a replacement Type A request with number 5, type 2,
admitted at time 200 with a 10-second timeout. -/
def ceNewA5 : alarm_t := build_alarm_a junk0 200 10 2 5 ("x")

/-- C2 counterexample.  First part: in the reachable registry
`[ceA5, ceC5]` (a SCHEDULE with number 5 and a pending CANCEL for 5),
inserting a SCHEDULE with number 5 leaves TWO entries with that number —
the claim's "exactly one entry with that number exists" is false.
Second part: in the registry `[ceC5, ceA5]`, the replacement hits the
first node with number 5 whatever its kind, so the CANCEL entry is the
one discarded, leaving two SCHEDULE entries with number 5 and no CANCEL
— so the claim's universal quantification over every registry state
also fails for the "replaces that entry" part. -/
theorem C2_counterexample :
    (check_number_a_exists 5 [ceA5, ceC5] = true ∧
      (alarm_insert ceNewA5 [ceA5, ceC5]).countP (fun z => decide (z.number = 5)) = 2) ∧
    (check_number_a_exists 5 [ceC5, ceA5] = true ∧
      alarm_insert ceNewA5 [ceC5, ceA5] = [{ ceNewA5 with prev_type := ceC5.type }, ceA5] ∧
      (alarm_insert ceNewA5 [ceC5, ceA5]).countP
        (fun z => decide (z.number = 5 ∧ z.request_type = TYPE_A)) = 2 ∧
      (alarm_insert ceNewA5 [ceC5, ceA5]).countP
        (fun z => decide (z.request_type = TYPE_C)) = 0) := by
  decide

/-- C2 (amended): when the first entry carrying the new SCHEDULE's
message number is itself a SCHEDULE entry and no further SCHEDULE entry
carries that number, `alarm_insert` replaces it in place: the new entry
takes the replaced entry's list position, its `prev_type` is set to the
replaced entry's type, every other entry is unchanged, and exactly one
SCHEDULE entry with that number exists afterward. -/
theorem C2_replacement (a x : alarm_t) (n : Int) (l1 l2 : List alarm_t)
    (ha : a.request_type = TYPE_A) (han : a.number = n)
    (hx : x.number = n) (_hxa : x.request_type = TYPE_A)
    (hl1 : ∀ y ∈ l1, y.number < n)
    (hl2 : l2.countP (is_sched_num n) = 0) :
    alarm_insert a (l1 ++ x :: l2) = l1 ++ { a with prev_type := x.type } :: l2 ∧
    (alarm_insert a (l1 ++ x :: l2)).countP (is_sched_num n) = 1 := by
  have heq : alarm_insert a (l1 ++ x :: l2) = l1 ++ { a with prev_type := x.type } :: l2 := by
    induction l1 with
    | nil =>
      simp only [List.nil_append, alarm_insert]
      rw [if_pos ⟨by omega, ha⟩]
    | cons y l1' ih =>
      have hy := hl1 y (List.mem_cons_self y l1')
      simp only [List.cons_append, alarm_insert]
      rw [if_neg (fun hk => absurd hk.1 (by omega)),
        if_neg (show ¬a.number < y.number by omega), List.append_eq]
      rw [ih fun z hz => hl1 z (List.mem_cons_of_mem y hz)]
  refine ⟨heq, ?_⟩
  rw [heq, List.countP_append, List.countP_cons]
  have h1 : l1.countP (is_sched_num n) = 0 :=
    List.countP_eq_zero.2 fun y hy => by
      simp only [is_sched_num, decide_eq_true_eq]
      intro hk
      have := hl1 y hy
      exact absurd hk.1 (by omega)
  have h2 : is_sched_num n { a with prev_type := x.type } = true := by
    simp only [is_sched_num, decide_eq_true_eq]
    exact ⟨han, ha⟩
  rw [h1, hl2, h2]
  simp

/-- C2 witness: a concrete in-place replacement in the registry
`[number 3, number 5 (SCHEDULE), number 5 (CANCEL)]`. -/
theorem C2_witness :
    alarm_insert ceNewA5 ([{ junk0 with number := 3, type := 1, request_type := TYPE_A }] ++
        ceA5 :: [ceC5]) =
      [{ junk0 with number := 3, type := 1, request_type := TYPE_A }] ++
        { ceNewA5 with prev_type := ceA5.type } :: [ceC5] ∧
    (alarm_insert ceNewA5 ([{ junk0 with number := 3, type := 1, request_type := TYPE_A }] ++
        ceA5 :: [ceC5])).countP (is_sched_num 5) = 1 :=
  C2_replacement ceNewA5 ceA5 5
    [{ junk0 with number := 3, type := 1, request_type := TYPE_A }] [ceC5]
    (by decide) (by decide) (by decide) (by decide) (by decide) (by decide)

/-- C3: a WATCH (Type B) admission for a message type with no SCHEDULE
(Type A) entry is rejected with the not-found error: nothing is
inserted, the registry and the thread list are unchanged, so no display
worker can be created for it. -/
theorem C3_watch_rejected (ty : Int) (junk : alarm_t) (s : SysState)
    (hty : 0 < ty) (h : check_type_a_exists ty s.alarm_list = false) :
    submit_b ty junk s = (s, AdmitRes.not_found) ∧
    (submit_b ty junk s).1.alarm_list = s.alarm_list ∧
    (submit_b ty junk s).1.thread_list = s.thread_list := by
  have he : submit_b ty junk s = (s, AdmitRes.not_found) := by
    simp only [submit_b]
    rw [if_pos hty, if_pos h]
  exact ⟨he, by rw [he], by rw [he]⟩

/-- C3 witness: a WATCH for type 2 against a registry holding only a
type-1 SCHEDULE entry. -/
theorem C3_witness :
    submit_b 2 junk0 (SysState.mk [ceA5] []) = (SysState.mk [ceA5] [], AdmitRes.not_found) ∧
    (submit_b 2 junk0 (SysState.mk [ceA5] [])).1.alarm_list = (SysState.mk [ceA5] []).alarm_list ∧
    (submit_b 2 junk0 (SysState.mk [ceA5] [])).1.thread_list = (SysState.mk [ceA5] []).thread_list :=
  C3_watch_rejected 2 junk0 (SysState.mk [ceA5] []) (by decide) (by decide)

/-- C4 counterexample: the registry holds only a pending CANCEL for
number 5 and no SCHEDULE with number 5; when the dispatcher processes
it, it unlinks the CANCEL entry itself, so the registry DOES change —
the claim's "the dispatcher performs no registry mutation" is false. -/
theorem C4_counterexample :
    check_number_a_exists 5 (SysState.mk [ceC5] []).alarm_list = false ∧
    (alarm_thread_step (SysState.mk [ceC5] [])).alarm_list ≠ (SysState.mk [ceC5] []).alarm_list := by
  decide

/-- C4 (amended): a CANCEL admission whose target SCHEDULE is missing
is rejected and leaves the state unchanged; and when the dispatcher's
cancel block runs for a number with no SCHEDULE entry (in a state whose
entry types and handle types are all at least 1, as validated input
guarantees), its only registry mutation is unlinking the CANCEL entry
itself — the thread list is untouched and no abort path is taken. -/
theorem C4_missing_target (n : Int) (junk : alarm_t) (s : SysState)
    (h1 : check_number_a_exists n s.alarm_list = false)
    (h2 : ∀ x ∈ s.alarm_list, 1 ≤ x.type)
    (h3 : ∀ t ∈ s.thread_list, 1 ≤ t.type) :
    ((submit_c n junk s).1 = s ∧ (submit_c n junk s).2 ≠ AdmitRes.accepted) ∧
    process_cancel n s =
      { alarm_list := remove_alarm_C n s.alarm_list, thread_list := s.thread_list } := by
  constructor
  · by_cases hn : 0 < n
    · have he : submit_c n junk s = (s, AdmitRes.not_found) := by
        simp only [submit_c]
        rw [if_pos hn, if_pos h1]
      rw [he]
      exact ⟨rfl, by simp⟩
    · have he : submit_c n junk s = (s, AdmitRes.invalid) := by
        simp only [submit_c]
        rw [if_neg hn]
      rw [he]
      exact ⟨rfl, by simp⟩
  · have hr : remove_alarm n s.alarm_list = (s.alarm_list, 0) :=
      remove_alarm_not_found n s.alarm_list h1
    have hz : check_type_a_exists (0 : Int) s.alarm_list = false :=
      check_type_a_exists_of_none 0 s.alarm_list fun x hx => by
        have := h2 x hx
        omega
    have hb : remove_alarm_B 0 s.alarm_list = s.alarm_list :=
      remove_alarm_B_of_none 0 s.alarm_list fun x hx hk => by
        have := h2 x hx
        have hk2 := hk.2
        omega
    have ht : terminate_thread 0 s.thread_list = s.thread_list :=
      terminate_thread_of_none 0 s.thread_list fun t' ht' => by
        have := h3 t' ht'
        omega
    simp only [process_cancel, hr]
    norm_num
    rw [hz]
    norm_num
    rw [hb, ht]
    exact ⟨rfl, rfl⟩

/-- C4 witness: a concrete run on the registry `[ceC5]` with no
SCHEDULE entry for number 5. -/
theorem C4_witness :
    ((submit_c 5 junk0 (SysState.mk [ceC5] [])).1 = SysState.mk [ceC5] [] ∧
      (submit_c 5 junk0 (SysState.mk [ceC5] [])).2 ≠ AdmitRes.accepted) ∧
    process_cancel 5 (SysState.mk [ceC5] []) =
      { alarm_list := remove_alarm_C 5 (SysState.mk [ceC5] []).alarm_list,
        thread_list := (SysState.mk [ceC5] []).thread_list } :=
  C4_missing_target 5 junk0 (SysState.mk [ceC5] []) (by decide) (by decide) (by decide)

/-- C5: when the dispatcher's cancel block runs for number `n` and the
registry holds exactly one SCHEDULE entry with that number (of a
validated, positive type) and at most one pending CANCEL for it, the
block removes both in the same step: afterwards no SCHEDULE entry and
no CANCEL entry with number `n` remains in the registry. -/
theorem C5_cancel_consumes (n : Int) (s : SysState)
    (h1 : s.alarm_list.countP (is_sched_num n) = 1)
    (h2 : s.alarm_list.countP (is_cancel_num n) ≤ 1)
    (h3 : ∀ x ∈ s.alarm_list, 1 ≤ x.type) :
    (process_cancel n s).alarm_list.countP (is_sched_num n) = 0 ∧
    (process_cancel n s).alarm_list.countP (is_cancel_num n) = 0 := by
  have hpc : ∀ x : alarm_t, x.number = n → x.request_type = TYPE_A →
      is_cancel_num n x = false := by
    intro x _ hx2
    simp only [is_cancel_num, decide_eq_false_iff_not]
    intro hk
    have hk2 := hk.2
    rw [TYPE_A] at hx2
    rw [TYPE_C] at hk2
    omega
  have hps : ∀ x : alarm_t, x.request_type = TYPE_C → x.number = n →
      is_sched_num n x = false := by
    intro x hx1 _
    simp only [is_sched_num, decide_eq_false_iff_not]
    intro hk
    have hk2 := hk.2
    rw [TYPE_C] at hx1
    rw [TYPE_A] at hk2
    omega
  have hbs : ∀ x : alarm_t, x.request_type = TYPE_B → x.type = (remove_alarm n s.alarm_list).2 →
      is_sched_num n x = false := by
    intro x hx1 _
    simp only [is_sched_num, decide_eq_false_iff_not]
    intro hk
    have hk2 := hk.2
    rw [TYPE_B] at hx1
    rw [TYPE_A] at hk2
    omega
  have hbc : ∀ x : alarm_t, x.request_type = TYPE_B → x.type = (remove_alarm n s.alarm_list).2 →
      is_cancel_num n x = false := by
    intro x hx1 _
    simp only [is_cancel_num, decide_eq_false_iff_not]
    intro hk
    have hk2 := hk.2
    rw [TYPE_B] at hx1
    rw [TYPE_C] at hk2
    omega
  have hval : 1 ≤ (remove_alarm n s.alarm_list).2 :=
    remove_alarm_val_pos n s.alarm_list h3 (by omega)
  have ha1 : (remove_alarm n s.alarm_list).1.countP (is_sched_num n) = 0 :=
    remove_alarm_count_self n s.alarm_list h1
  have hc1 : (remove_alarm n s.alarm_list).1.countP (is_cancel_num n) ≤ 1 := by
    rw [countP_remove_alarm_other n s.alarm_list (is_cancel_num n) hpc]
    exact h2
  have ha2 : (remove_alarm_C n (remove_alarm n s.alarm_list).1).countP (is_sched_num n) = 0 := by
    rw [countP_remove_alarm_C_other n _ (is_sched_num n) hps]
    exact ha1
  have hc2 : (remove_alarm_C n (remove_alarm n s.alarm_list).1).countP (is_cancel_num n) = 0 :=
    remove_alarm_C_count_self n _ hc1
  have hne : (remove_alarm n s.alarm_list).2 ≠ 0 := by omega
  simp only [process_cancel]
  rw [if_pos hne]
  split
  · constructor
    · show (remove_alarm_C n (remove_alarm_B (remove_alarm n s.alarm_list).2
          (remove_alarm_C n (remove_alarm n s.alarm_list).1))).countP (is_sched_num n) = 0
      have hstep : (remove_alarm_B (remove_alarm n s.alarm_list).2
          (remove_alarm_C n (remove_alarm n s.alarm_list).1)).countP (is_sched_num n) = 0 := by
        rw [countP_remove_alarm_B_other _ _ (is_sched_num n) hbs]
        exact ha2
      have hle := List.Sublist.countP_le (is_sched_num n)
        (remove_alarm_C_sublist n (remove_alarm_B (remove_alarm n s.alarm_list).2
          (remove_alarm_C n (remove_alarm n s.alarm_list).1)))
      omega
    · show (remove_alarm_C n (remove_alarm_B (remove_alarm n s.alarm_list).2
          (remove_alarm_C n (remove_alarm n s.alarm_list).1))).countP (is_cancel_num n) = 0
      have hstep : (remove_alarm_B (remove_alarm n s.alarm_list).2
          (remove_alarm_C n (remove_alarm n s.alarm_list).1)).countP (is_cancel_num n) = 0 := by
        rw [countP_remove_alarm_B_other _ _ (is_cancel_num n) hbc]
        exact hc2
      have hle := List.Sublist.countP_le (is_cancel_num n)
        (remove_alarm_C_sublist n (remove_alarm_B (remove_alarm n s.alarm_list).2
          (remove_alarm_C n (remove_alarm n s.alarm_list).1)))
      omega
  · exact ⟨ha2, hc2⟩

/-- C5 witness: a registry with the SCHEDULE `ceA5` and its pending
CANCEL `ceC5`; both are gone after the cancel step. -/
theorem C5_witness :
    (process_cancel 5 (SysState.mk [ceA5, ceC5] [{ type := 1 }])).alarm_list.countP
      (is_sched_num 5) = 0 ∧
    (process_cancel 5 (SysState.mk [ceA5, ceC5] [{ type := 1 }])).alarm_list.countP
      (is_cancel_num 5) = 0 :=
  C5_cancel_consumes 5 (SysState.mk [ceA5, ceC5] [{ type := 1 }])
    (by decide) (by decide) (by decide)

/-- Trace for C6, step 1: admit SCHEDULE number 5 type 1 at time 100. -/
def c6_s1 : SysState := (submit_a 100 10 1 5 ("m") junk0 (SysState.mk [] [])).1

/-- Trace for C6, step 2: dispatcher processes the new SCHEDULE. -/
def c6_s2 : SysState := alarm_thread_step c6_s1

/-- Trace for C6, step 3: admit WATCH for type 1. -/
def c6_s3 : SysState := (submit_b 1 junk0 c6_s2).1

/-- Trace for C6, step 4: dispatcher processes the WATCH and creates
the worker handle for type 1. -/
def c6_s4 : SysState := alarm_thread_step c6_s3

/-- Trace for C6, step 5: admit a replacement SCHEDULE for number 5
with type 2 — type 1 now has no SCHEDULE entry left. -/
def c6_s5 : SysState := (submit_a 200 10 2 5 ("m2") junk0 c6_s4).1

/-- Trace for C6, step 6: dispatcher processes the replacement;
`check_useless_thread` retires the type-1 worker handle, but the WATCH
entry for type 1 stays in the registry. -/
def c6_s6 : SysState := alarm_thread_step c6_s5

/-- Trace for C6, step 7: admit a fresh SCHEDULE number 7 of type 1. -/
def c6_s7 : SysState := (submit_a 300 10 1 7 ("m3") junk0 c6_s6).1

/-- Trace for C6, step 8: dispatcher processes it; no handle for
type 1 is ever re-created, because only WATCH processing creates
handles and the type-1 WATCH entry is no longer new. -/
def c6_s8 : SysState := alarm_thread_step c6_s7

/-- C6 counterexample: after the above reachable, fully processed
trace, type 1 has an active WATCH entry and a SCHEDULE entry, yet the
thread list holds no worker handle at all — the claimed "exactly one
live worker handle per such type" invariant is false. -/
theorem C6_counterexample :
    check_dup 1 TYPE_B c6_s8.alarm_list = true ∧
    check_type_a_exists 1 c6_s8.alarm_list = true ∧
    c6_s8.alarm_list.countP (fun x => decide (x.is_new = 1)) = 0 ∧
    c6_s8.thread_list = [] := by
  decide

/-- C6 (amended): at most one handle per type is guaranteed only in the
retirement direction — when the dispatcher's cancel block removes the
last SCHEDULE entry of a type (of positive type number, with at most
one handle listed for it), the worker handle for that type is retired
within that same step; a type with an active WATCH entry and a SCHEDULE
entry may nevertheless have no live handle. -/
theorem C6_cancel_retires_worker (n t : Int) (s : SysState)
    (h1 : (remove_alarm n s.alarm_list).2 = t)
    (h2 : 1 ≤ t)
    (h3 : check_type_a_exists t (remove_alarm_C n (remove_alarm n s.alarm_list).1) = false)
    (h4 : s.thread_list.countP (is_handle_type t) ≤ 1) :
    (process_cancel n s).thread_list = terminate_thread t s.thread_list ∧
    (process_cancel n s).thread_list.countP (is_handle_type t) = 0 := by
  have hne : (remove_alarm n s.alarm_list).2 ≠ 0 := by omega
  have he : process_cancel n s =
      { alarm_list := remove_alarm_C n (remove_alarm_B t
          (remove_alarm_C n (remove_alarm n s.alarm_list).1)),
        thread_list := terminate_thread t s.thread_list } := by
    simp only [process_cancel]
    rw [if_pos hne, h1, if_pos h3]
  rw [he]
  exact ⟨rfl, terminate_thread_count_self t s.thread_list h4⟩

/-- C6 witness: cancelling number 5 removes the last type-1 SCHEDULE
and retires the type-1 handle in the same step. -/
theorem C6_witness :
    (process_cancel 5 (SysState.mk [ceA5, ceC5] [{ type := 1 }])).thread_list =
      terminate_thread 1 (SysState.mk [ceA5, ceC5] [{ type := 1 }]).thread_list ∧
    (process_cancel 5 (SysState.mk [ceA5, ceC5] [{ type := 1 }])).thread_list.countP
      (is_handle_type 1) = 0 :=
  C6_cancel_retires_worker 5 1 (SysState.mk [ceA5, ceC5] [{ type := 1 }])
    (by decide) (by decide) (by decide) (by decide)

/-- Fixture for C7: a SCHEDULE admitted at time 100 with a 2-second
timeout, so the deadline stored at admission is 102. -/
def ce7 : alarm_t := build_alarm_a junk0 100 2 1 5 ("hi")

/-- C7 counterexample: the entry's stored admission deadline is 102,
but a worker visiting it at time 200 overwrites the deadline with
`now + seconds = 202` and fires at 202 — neither at the stored deadline
102 nor immediately at 200 (as `remaining = deadline − now ≤ 0` would
demand).  The worker does recompute the deadline from a later point in
time, contradicting the claim. -/
theorem C7_counterexample :
    ce7.time = 102 ∧
    (worker_visit 1 200 ce7).events = [DisplayEvent.displayed 1 5 ("hi") 202] ∧
    (worker_visit 1 200 ce7).entry.time = 202 ∧
    ((202 : Int) ≠ 102) ∧ ((202 : Int) ≠ 200) := by
  decide

/-- C7 (amended): the deadline stored at admission equals admission
time plus the time-to-live; but on each visit the display worker
overwrites the entry's deadline with the visit time plus the
time-to-live and fires at that recomputed moment, independent of the
stored deadline. -/
theorem C7_deadline_recomputed (junk : alarm_t) (now sec ty num : Int) (msg : String)
    (a : alarm_t) (w now2 t2 : Int) (h : a.type = w ∧ a.request_type = TYPE_A) :
    (build_alarm_a junk now sec ty num msg).time = now + sec ∧
    (worker_visit w now2 a).clock = now2 + a.seconds ∧
    (worker_visit w now2 a).events =
      [DisplayEvent.displayed a.type a.number a.message (now2 + a.seconds)] ∧
    (worker_visit w now2 { a with time := t2 }).events = (worker_visit w now2 a).events := by
  obtain ⟨h1, h2⟩ := h
  have hv : worker_visit w now2 a =
      { entry := { a with time := now2 + a.seconds }, clock := now2 + a.seconds,
        events := [DisplayEvent.displayed a.type a.number a.message (now2 + a.seconds)] } := by
    simp only [worker_visit]
    rw [if_neg fun hk => hk.1 h1, if_pos ⟨h1, h2⟩]
  have hv2 : worker_visit w now2 { a with time := t2 } =
      { entry := { a with time := now2 + a.seconds }, clock := now2 + a.seconds,
        events := [DisplayEvent.displayed a.type a.number a.message (now2 + a.seconds)] } := by
    simp only [worker_visit]
    rw [if_neg fun hk => hk.1 h1, if_pos ⟨h1, h2⟩]
  rw [hv, hv2]
  exact ⟨rfl, rfl, rfl, rfl⟩

/-- C7 witness: the concrete entry `ce7` admitted at 100 with
2-second timeout, visited at 200. -/
theorem C7_witness :
    (build_alarm_a junk0 100 2 1 5 ("hi")).time = 100 + 2 ∧
    (worker_visit 1 200 ce7).clock = 200 + ce7.seconds ∧
    (worker_visit 1 200 ce7).events =
      [DisplayEvent.displayed ce7.type ce7.number ce7.message (200 + ce7.seconds)] ∧
    (worker_visit 1 200 { ce7 with time := 55 }).events = (worker_visit 1 200 ce7).events :=
  C7_deadline_recomputed junk0 100 2 1 5 ("hi") ce7 1 200 55 (by decide)

/-- Trace for C8, step 1: admit SCHEDULE type 1, number 5, ttl 2 at
time 100. -/
def c8_s1 : SysState := (submit_a 100 2 1 5 ("hi") junk0 (SysState.mk [] [])).1

/-- Trace for C8, step 2: dispatcher processes the SCHEDULE. -/
def c8_s2 : SysState := alarm_thread_step c8_s1

/-- Trace for C8, step 3: admit WATCH for type 1. -/
def c8_s3 : SysState := (submit_b 1 junk0 c8_s2).1

/-- Trace for C8, step 4: dispatcher processes the WATCH and creates
the type-1 display worker. -/
def c8_s4 : SysState := alarm_thread_step c8_s3

/-- Trace for C8: first traversal of the registry by the type-1 worker
starting at time 102. -/
def c8_p1 : PassRes := worker_pass 1 102 c8_s4.alarm_list

/-- Trace for C8: second traversal, continuing from the first. -/
def c8_p2 : PassRes := worker_pass 1 c8_p1.clock c8_p1.alarms

/-- C8 counterexample: the worker for type 1 is created, but the
one-shot entry is displayed again on every traversal — each of the
first two passes emits a display event for number 5, so in total more
than one display event for id 5 is observed, contradicting "exactly one
display event for id 5 is ever observed". -/
theorem C8_counterexample :
    c8_s4.thread_list = [{ type := 1 }] ∧
    (c8_p1.events).countP (is_display_of 5) = 1 ∧
    (c8_p2.events).countP (is_display_of 5) = 1 ∧
    ((c8_p1.events ++ c8_p2.events).countP (is_display_of 5)) = 2 := by
  decide

/-- C8 (amended): after admitting the SCHEDULE and the WATCH, a display
worker for type 1 is created; but the worker removes nothing from the
registry and emits one display event for a number per matching SCHEDULE
entry on EVERY traversal, so the entry is re-displayed on each pass
rather than displayed exactly once. -/
theorem C8_periodic_display (ty n now : Int) (l : List alarm_t) :
    c8_s4.thread_list = [{ type := 1 }] ∧
    (worker_pass ty now l).alarms.length = l.length ∧
    ((worker_pass ty now l).events).countP (is_display_of n) =
      l.countP fun x => decide (x.request_type = TYPE_A ∧ x.type = ty ∧ x.number = n) :=
  ⟨by decide, worker_pass_length ty now l, worker_pass_display_count ty n now l⟩

/-- C9: the dispatcher's idle loop `while (insert_flag == 0) { }`
(lines 645-647, marked "busy wait" in the source) polls the shared flag
on every iteration without any blocking primitive: when the flag stays
0 it completes none of its first `fuel` polls, for every `fuel`. -/
theorem C9_dispatcher_busy_waits (flag : Nat → Int) (i fuel : Nat)
    (h : ∀ j, flag j = 0) :
    dispatcher_idle_wait flag i fuel = none := by
  induction fuel generalizing i with
  | zero => rfl
  | succ k ih =>
    simp only [dispatcher_idle_wait]
    rw [if_pos (h i)]
    exact ih (i + 1)

/-- C9 witness: with the flag never raised, 100 successive polls all
find it 0 and the loop is still spinning. -/
theorem C9_witness : dispatcher_idle_wait (fun _ => 0) 0 100 = none :=
  C9_dispatcher_busy_waits (fun _ => 0) 0 100 fun _ => rfl

/-- C10: a CANCEL admission for a number that already has a pending
CANCEL entry is rejected (the state is unchanged and the result is not
ACCEPTED); moreover every CANCEL admission preserves "at most one
pending CANCEL entry per message number". -/
theorem C10_dup_cancel_rejected (n : Int) (junk : alarm_t) (s : SysState)
    (h : check_dup_2 n TYPE_C s.alarm_list = true) :
    ((submit_c n junk s).1 = s ∧ (submit_c n junk s).2 ≠ AdmitRes.accepted) ∧
    ∀ (m : Int) (j2 : alarm_t) (s2 : SysState),
      s2.alarm_list.countP (is_cancel_num m) ≤ 1 →
      (submit_c m j2 s2).1.alarm_list.countP (is_cancel_num m) ≤ 1 := by
  constructor
  · by_cases hn : 0 < n
    · cases hb : check_number_a_exists n s.alarm_list with
      | false =>
        have he : submit_c n junk s = (s, AdmitRes.not_found) := by
          simp only [submit_c]
          rw [if_pos hn, if_pos hb]
        rw [he]
        exact ⟨rfl, by simp⟩
      | true =>
        have he : submit_c n junk s = (s, AdmitRes.duplicate) := by
          simp only [submit_c]
          rw [if_pos hn, if_neg (by simp [hb]), if_pos h]
        rw [he]
        exact ⟨rfl, by simp⟩
    · have he : submit_c n junk s = (s, AdmitRes.invalid) := by
        simp only [submit_c]
        rw [if_neg hn]
      rw [he]
      exact ⟨rfl, by simp⟩
  · intro m j2 s2 hle
    by_cases hm : 0 < m
    · cases hb : check_number_a_exists m s2.alarm_list with
      | false =>
        have he : submit_c m j2 s2 = (s2, AdmitRes.not_found) := by
          simp only [submit_c]
          rw [if_pos hm, if_pos hb]
        rw [he]
        exact hle
      | true =>
        cases hd : check_dup_2 m TYPE_C s2.alarm_list with
        | true =>
          have he : submit_c m j2 s2 = (s2, AdmitRes.duplicate) := by
            simp only [submit_c]
            rw [if_pos hm, if_neg (by simp [hb]), if_pos hd]
          rw [he]
          exact hle
        | false =>
          have hz : s2.alarm_list.countP (is_cancel_num m) = 0 :=
            check_dup_2_false_count m TYPE_C s2.alarm_list hd
          have he : (submit_c m j2 s2).1.alarm_list =
              alarm_insert { j2 with number := m, request_type := TYPE_C, is_new := 1 } s2.alarm_list := by
            simp only [submit_c]
            rw [if_pos hm, if_neg (by simp [hb]), if_neg (by simp [hd])]
          rw [he, countP_alarm_insert_not_a _ _ _ (show ¬((3 : Int) = 1) by decide), hz]
          split
          · omega
          · omega
    · have he : submit_c m j2 s2 = (s2, AdmitRes.invalid) := by
        simp only [submit_c]
        rw [if_neg hm]
      rw [he]
      exact hle

/-- C10 witness: a second CANCEL for number 5 rejected while `ceC5` is
pending, with the at-most-one property at the concrete state. -/
theorem C10_witness :
    ((submit_c 5 junk0 (SysState.mk [ceA5, ceC5] [])).1 = SysState.mk [ceA5, ceC5] [] ∧
      (submit_c 5 junk0 (SysState.mk [ceA5, ceC5] [])).2 ≠ AdmitRes.accepted) ∧
    ∀ (m : Int) (j2 : alarm_t) (s2 : SysState),
      s2.alarm_list.countP (is_cancel_num m) ≤ 1 →
      (submit_c m j2 s2).1.alarm_list.countP (is_cancel_num m) ≤ 1 :=
  C10_dup_cancel_rejected 5 junk0 (SysState.mk [ceA5, ceC5] []) (by decide)
